import Mathlib

/-!
Verification of the SiliconCloudImage proxy (src/main.go) against its
natural-language specification.

The Go program is shallowly embedded as follows:

* JSON values are the inductive type `Json`; a JSON number is kept as its
  literal text (mirroring Go's `json.Number`, which is a string type).
* `map[string]interface{}` and struct decoding follow Go's `encoding/json`
  semantics: unknown object fields are ignored, absent fields keep the Go
  zero value, JSON `null` leaves the target at its zero value, and a
  type-mismatched field is a decode error.  Duplicate keys in an object are
  resolved to the last occurrence (Go decodes fields in order, later
  occurrences overwriting earlier ones), hence `lookupField` searches the
  reversed field list.
* Network effects are parameters: the upstream call's outcome, the per-index
  image-fetch outcomes, and the order in which the concurrent downloads
  complete (any permutation of the started indices).
* Go byte strings are modelled as `List Nat` with every element `< 256`;
  header strings are ASCII, so Go's byte-indexed slicing coincides with
  character-indexed `List Char` operations.
-/

/-- JSON values.  `num` carries the number's literal text, as Go's
`json.Number` does. -/
inductive Json where
  | null : Json
  | bool (b : Bool) : Json
  | num (lit : String) : Json
  | str (s : String) : Json
  | arr (elems : List Json) : Json
  | obj (fields : List (String × Json)) : Json

/-- Top-level keys of a JSON object (used to compare payload shapes). -/
def jsonTopKeys : Json → List String
  | Json.obj fields => fields.map Prod.fst
  | _ => []

/-- Field lookup in a decoded JSON object: the LAST occurrence of the key
wins, matching Go's `encoding/json` overwrite behaviour on duplicates. -/
def lookupField (fields : List (String × Json)) (key : String) : Option Json :=
  (fields.reverse.find? (fun p => p.1 == key)).map Prod.snd

/-- Decoding an arbitrary JSON value into Go's `map[string]interface{}`
(the handler's `reqBody`): succeeds for an object, and for `null` (which
leaves the map `nil`, behaving as an empty map for lookups); any other
top-level value is a decode error. -/
def decodeToMap : Json → Option (List (String × Json))
  | Json.obj fields => some fields
  | Json.null => some []
  | _ => none

/-- Character is an ASCII digit. -/
def isDigitChar (c : Char) : Bool := decide ('0' ≤ c) && decide (c ≤ '9')

/-- Digits after an exponent sign: at least one, all digits
(final segment of Go's `isValidNumber`). -/
def validDigits1 : List Char → Bool
  | [] => false
  | l => l.all isDigitChar

/-- Exponent part after `e`/`E`: optional sign, then digits. -/
def validExpTail : List Char → Bool
  | '+' :: rest => validDigits1 rest
  | '-' :: rest => validDigits1 rest
  | l => validDigits1 l

/-- Optional exponent part of a JSON number literal. -/
def validExpPart : List Char → Bool
  | [] => true
  | 'e' :: rest => validExpTail rest
  | 'E' :: rest => validExpTail rest
  | _ => false

/-- Optional fraction part of a JSON number literal, then exponent. -/
def validFracPart : List Char → Bool
  | [] => true
  | '.' :: rest =>
    match rest with
    | [] => false
    | c :: _ => isDigitChar c && validExpPart (rest.dropWhile isDigitChar)
  | l => validExpPart l

/-- Integer part of a JSON number literal: `0` alone or `1-9` then digits. -/
def validIntPart : List Char → Bool
  | [] => false
  | '0' :: rest => validFracPart rest
  | c :: rest =>
    if isDigitChar c then validFracPart (rest.dropWhile isDigitChar) else false

/-- Go `encoding/json`'s `isValidNumber`: the JSON number grammar. -/
def isValidNumber (s : String) : Bool :=
  match s.data with
  | [] => false
  | '-' :: rest => validIntPart rest
  | l => validIntPart l

/-- `Image` from src/main.go: `URL` and `RevisedPrompt` (Go zero value `""`
models both an absent and an empty `revised_prompt`; the `ExtraFields`
member is tagged `json:"-"` and never decoded or encoded, so it is omitted). -/
structure Image where
  url : String
  revisedPrompt : String
deriving DecidableEq, Inhabited

/-- `TimingDetails` from src/main.go; `inference` is a `json.Number`,
modelled by its literal text. -/
structure TimingDetails where
  inference : String
deriving DecidableEq, Inhabited

/-- `OriginResponse` from src/main.go (a nil and an empty `Images` slice are
identified; no claim distinguishes them). -/
structure OriginResponse where
  images : List Image
  timings : TimingDetails
  seed : String
deriving DecidableEq, Inhabited

/-- `OpenAIDataItem` from src/main.go. -/
structure OpenAIDataItem where
  b64Json : String
  revisedPrompt : String
deriving DecidableEq, Inhabited

/-- `OpenAIResponse` from src/main.go. -/
structure OpenAIResponse where
  created : Int
  data : List OpenAIDataItem
deriving DecidableEq, Inhabited

/-- Decode a JSON value into a Go `string` field: strings decode, `null`
and absence keep `""`, anything else is an error. -/
def decodeStringField (fields : List (String × Json)) (key : String) : Option String :=
  match lookupField fields key with
  | none => some ""
  | some Json.null => some ""
  | some (Json.str s) => some s
  | some _ => none

/-- Decode a JSON value into a Go `json.Number`: a JSON number stores its
literal, a JSON string is accepted when its content is a valid number
literal (Go's `literalStore` special case), `null` keeps the zero value. -/
def decodeNumberValue : Json → Option String
  | Json.null => some ""
  | Json.num lit => some lit
  | Json.str s => if isValidNumber s then some s else none
  | _ => none

/-- Decode one element of the `images` array into `Image`. -/
def decodeImage : Json → Option Image
  | Json.null => some { url := "", revisedPrompt := "" }
  | Json.obj fields => do
    let url ← decodeStringField fields "url"
    let rp ← decodeStringField fields "revised_prompt"
    some { url := url, revisedPrompt := rp }
  | _ => none

/-- Decode the `images` field: `null` leaves the nil slice. -/
def decodeImageList : Json → Option (List Image)
  | Json.null => some []
  | Json.arr xs => xs.mapM decodeImage
  | _ => none

/-- Decode the `timings` field into `TimingDetails`. -/
def decodeTimings : Json → Option TimingDetails
  | Json.null => some { inference := "" }
  | Json.obj fields =>
    (match lookupField fields "inference" with
     | none => some ""
     | some j => decodeNumberValue j).map TimingDetails.mk
  | _ => none

/-- Decoding the upstream body into `OriginResponse`
(`json.NewDecoder(resp.Body).Decode(&originResp)`): only the three tagged
fields are consulted; every other field of the payload is ignored. -/
def decodeOriginResponse : Json → Option OriginResponse
  | Json.null => some { images := [], timings := { inference := "" }, seed := "" }
  | Json.obj fields => do
    let imgs ← match lookupField fields "images" with
      | none => some []
      | some j => decodeImageList j
    let t ← match lookupField fields "timings" with
      | none => some { inference := "" }
      | some j => decodeTimings j
    let s ← match lookupField fields "seed" with
      | none => some ""
      | some j => decodeNumberValue j
    some { images := imgs, timings := t, seed := s }
  | _ => none

/-- Re-encoding one `Image` (`json.NewEncoder(w).Encode(originResp)` path):
`url` always, `revised_prompt` only when non-empty (`omitempty`),
`ExtraFields` never (`json:"-"`). -/
def imageJson (img : Image) : Json :=
  Json.obj (("url", Json.str img.url) ::
    (if img.revisedPrompt = "" then [] else [("revised_prompt", Json.str img.revisedPrompt)]))

/-- Marshalling one `json.Number` field: Go's encoder substitutes `"0"` for
the empty zero value (the Go 1.5 compatibility shim in `stringEncoder`) and
only fails on a literal that is still not a valid JSON number. -/
def encodeNumberLit (lit : String) : Option String :=
  let lit0 := if lit = "" then "0" else lit
  if isValidNumber lit0 then some lit0 else none

/-- Marshalling `OriginResponse` back to JSON.  An absent upstream `seed` or
`timings.inference` (zero value `""`) is encoded as the number `0` and the
full body is written; `Marshal` fails — and the encoder writes nothing —
only when a `json.Number` field holds a non-empty invalid literal, which
cannot arise from decoding real JSON. -/
def marshalOriginResponse (o : OriginResponse) : Option Json :=
  match encodeNumberLit o.timings.inference, encodeNumberLit o.seed with
  | some inf, some sd =>
    some (Json.obj [("images", Json.arr (o.images.map imageJson)),
                    ("timings", Json.obj [("inference", Json.num inf)]),
                    ("seed", Json.num sd)])
  | _, _ => none

/-- Encoding one `OpenAIDataItem`: `b64_json` always, `revised_prompt`
only when non-empty (`omitempty`). -/
def itemJson (it : OpenAIDataItem) : Json :=
  Json.obj (("b64_json", Json.str it.b64Json) ::
    (if it.revisedPrompt = "" then [] else [("revised_prompt", Json.str it.revisedPrompt)]))

/-- Encoding the `OpenAIResponse` envelope. -/
def marshalOpenAIResponse (resp : OpenAIResponse) : Json :=
  Json.obj [("created", Json.num (toString resp.created)),
            ("data", Json.arr (resp.data.map itemJson))]

/-- The handler's `reqBody["response_format"].(string)` with the `ok`
result discarded: a missing or non-string field yields `""`. -/
def getStringField (fields : List (String × Json)) (key : String) : String :=
  match lookupField fields key with
  | some (Json.str s) => s
  | _ => ""

/-- The handler's field remap: `reqBody["image_size"] = size` followed by
`delete(reqBody, "size")`, when a `size` key is present. -/
def remapSize (fields : List (String × Json)) : List (String × Json) :=
  match lookupField fields "size" with
  | some v => (fields.filter (fun p => p.1 ≠ "size")) ++ [("image_size", v)]
  | none => fields

/-- The standard base64 alphabet used by Go's `base64.StdEncoding`
(RFC 4648, with `=` padding, no line breaks). -/
def b64Chars : List Char :=
  ['A', 'B', 'C', 'D', 'E', 'F', 'G', 'H', 'I', 'J', 'K', 'L', 'M',
   'N', 'O', 'P', 'Q', 'R', 'S', 'T', 'U', 'V', 'W', 'X', 'Y', 'Z',
   'a', 'b', 'c', 'd', 'e', 'f', 'g', 'h', 'i', 'j', 'k', 'l', 'm',
   'n', 'o', 'p', 'q', 'r', 's', 't', 'u', 'v', 'w', 'x', 'y', 'z',
   '0', '1', '2', '3', '4', '5', '6', '7', '8', '9', '+', '/']

/-- The alphabet character for a 6-bit group. -/
def encChar (n : Nat) : Char := b64Chars.getD n '?'

/-- Index of a character in the base64 alphabet. -/
def decCharAux : List Char → Char → Nat → Option Nat
  | [], _, _ => none
  | a :: rest, c, i => if a = c then some i else decCharAux rest c (i + 1)

/-- Inverse of `encChar` on the alphabet. -/
def decChar (c : Char) : Option Nat := decCharAux b64Chars c 0

/-- `base64.StdEncoding.EncodeToString` on a byte list: 3 bytes map to 4
alphabet characters; a trailing 1- or 2-byte group is padded with `=`. -/
def encB64 : List Nat → List Char
  | [] => []
  | [a] => [encChar (a / 4), encChar (a % 4 * 16), '=', '=']
  | [a, b] => [encChar (a / 4), encChar (a % 4 * 16 + b / 16), encChar (b % 16 * 4), '=']
  | a :: b :: c :: rest =>
    encChar (a / 4) :: encChar (a % 4 * 16 + b / 16) ::
    encChar (b % 16 * 4 + c / 64) :: encChar (c % 64) :: encB64 rest

/-- Standard base64 decoding, the inverse transform of `encB64`. -/
def decB64 : List Char → Option (List Nat)
  | [] => some []
  | c1 :: c2 :: c3 :: c4 :: rest =>
    match decChar c1, decChar c2 with
    | some h1, some h2 =>
      if c3 = '=' then
        if c4 = '=' ∧ rest = [] then some [h1 * 4 + h2 / 16] else none
      else
        match decChar c3 with
        | some h3 =>
          if c4 = '=' then
            if rest = [] then some [h1 * 4 + h2 / 16, h2 % 16 * 16 + h3 / 4] else none
          else
            match decChar c4, decB64 rest with
            | some h4, some tail =>
              some ((h1 * 4 + h2 / 16) :: (h2 % 16 * 16 + h3 / 4) ::
                    (h3 % 4 * 64 + h4) :: tail)
            | _, _ => none
        | none => none
    | _, _ => none
  | _ => none

/-- `base64.StdEncoding.EncodeToString(data)` from src/main.go line 161. -/
def encodeToString (data : List Nat) : String := String.mk (encB64 data)

/-- One message sent by a `downloadImage` goroutine: a decoded item on
`resultChan` or an error on `errorChan`. -/
inductive ChannelMsg where
  | result (item : OpenAIDataItem) : ChannelMsg
  | error (reason : String) : ChannelMsg
deriving DecidableEq

/-- The observable outcome of the single `http.Get(url)` a download makes:
either a transport-level error, or a response with a status code and a body
whose read may itself fail. -/
inductive FetchResult where
  | transportErr (reason : String) : FetchResult
  | httpResp (status : Nat) (body : Except String (List Nat)) : FetchResult

/-- `downloadImage(url, index)` from src/main.go lines 135-169, as a function
of the fetch outcome for its URL: transport error, non-200 status, or a body
read error each send one error message; otherwise the base64-encoded bytes
are sent together with `originResp.Images[index].RevisedPrompt`. -/
def downloadImage (images : List Image) (index : Nat) (f : FetchResult) : ChannelMsg :=
  match f with
  | FetchResult.transportErr e => ChannelMsg.error e
  | FetchResult.httpResp status body =>
    if status ≠ 200 then ChannelMsg.error ("HTTP " ++ Nat.repr status)
    else
      match body with
      | Except.error e => ChannelMsg.error e
      | Except.ok data =>
        ChannelMsg.result
          { b64Json := encodeToString data,
            revisedPrompt := (images.getD index default).revisedPrompt }

/-- Whether a fetch outcome makes `downloadImage` report an error. -/
def fetchFails : FetchResult → Bool
  | FetchResult.transportErr _ => true
  | FetchResult.httpResp _ (Except.error _) => true
  | FetchResult.httpResp status (Except.ok _) => status != 200

/-- Whether a channel message is an error-channel message. -/
def isErrMsg : ChannelMsg → Bool
  | ChannelMsg.error _ => true
  | ChannelMsg.result _ => false

/-- One iteration of the handler's collection loop (src/main.go lines
177-185): a result message is appended as is; an error message is appended
as `OpenAIDataItem{B64JSON: ""}` — with the Go zero value, i.e. an empty
`RevisedPrompt`. -/
def collectOne : ChannelMsg → OpenAIDataItem
  | ChannelMsg.result it => it
  | ChannelMsg.error _ => { b64Json := "", revisedPrompt := "" }

/-- The collection loop over the merged stream of channel messages, in the
order they are received: each of the `N` receives appends exactly one item. -/
def collectResults (arrivals : List ChannelMsg) : List OpenAIDataItem :=
  arrivals.map collectOne

/-- The fan-out section of the handler: one goroutine per image (indices
`0..N`), each sending one message; the collection loop receives the `N`
messages in completion order.  `fetch i` is the HTTP outcome of the download
for index `i`, and `order` is the completion order, an arbitrary permutation
of `0..N` quantified over in the theorems. -/
def fanOutCollect (images : List Image) (fetch : Nat → FetchResult)
    (order : List Nat) : List OpenAIDataItem :=
  collectResults (order.map (fun i => downloadImage images i (fetch i)))

/-- Outcome of the upstream generation call (`client.Do(proxyReq)`):
a transport failure, or a response whose body may (`some`) or may not
(`none`) be parseable JSON. -/
inductive UpstreamResult where
  | unavailable : UpstreamResult
  | responds (body : Option Json) : UpstreamResult

/-- The bytes written to the `http.ResponseWriter`: `text` for the plain
`http.Error` bodies (which append a trailing newline), `jsonBody` for the
`json.NewEncoder(w).Encode` bodies, abstracted to the JSON value written
(`none` when `Marshal` fails and nothing is written). -/
inductive BodyOut where
  | text (s : String) : BodyOut
  | jsonBody (j : Option Json) : BodyOut

/-- The observable effect of one `handleGenerations` call. -/
structure HandlerOutcome where
  status : Nat
  body : BodyOut
  upstreamCalled : Bool
  fetchesStarted : Nat

/-- Body written by `http.Error(w, msg, code)`: the message followed by the
newline `fmt.Fprintln` appends. -/
def httpErrorBody (msg : String) : String := msg ++ "\n"

/-- `handleGenerations` from src/main.go lines 68-196.  `reqBody` is the
inbound body's parse result (`none` when not valid JSON), `upstream` the
upstream call's outcome, `created` the `time.Now().Unix()` value, `fetch`
the per-index download outcomes and `order` their completion order. -/
def handleGenerations (reqBody : Option Json) (upstream : UpstreamResult)
    (created : Int) (fetch : Nat → FetchResult) (order : List Nat) : HandlerOutcome :=
  match reqBody with
  | none =>
    { status := 400, body := BodyOut.text (httpErrorBody "\x7b\"error\": \"Invalid JSON\"\x7d"),
      upstreamCalled := false, fetchesStarted := 0 }
  | some parsed =>
    match decodeToMap parsed with
    | none =>
      { status := 400, body := BodyOut.text (httpErrorBody "\x7b\"error\": \"Invalid JSON\"\x7d"),
        upstreamCalled := false, fetchesStarted := 0 }
    | some fields0 =>
      let fields := remapSize fields0
      match upstream with
      | UpstreamResult.unavailable =>
        { status := 502,
          body := BodyOut.text (httpErrorBody "\x7b\"error\":\"Upstream service unavailable\"\x7d"),
          upstreamCalled := true, fetchesStarted := 0 }
      | UpstreamResult.responds respBody =>
        match respBody.bind decodeOriginResponse with
        | none =>
          { status := 500,
            body := BodyOut.text (httpErrorBody "\x7b\"error\":\"Invalid upstream response\"\x7d"),
            upstreamCalled := true, fetchesStarted := 0 }
        | some originResp =>
          if getStringField fields "response_format" ≠ "b64_json" then
            { status := 200, body := BodyOut.jsonBody (marshalOriginResponse originResp),
              upstreamCalled := true, fetchesStarted := 0 }
          else
            { status := 200,
              body := BodyOut.jsonBody (some (marshalOpenAIResponse
                { created := created,
                  data := fanOutCollect originResp.images fetch order })),
              upstreamCalled := true, fetchesStarted := originResp.images.length }

/-- Go's `s[:n]` on an ASCII string (byte slicing coincides with character
slicing for ASCII; header values here are ASCII). -/
def strTakeChars (s : String) (n : Nat) : String := String.mk (s.data.take n)

/-- ASCII lower-casing, character by character. -/
def strToLower (s : String) : String := String.mk (s.data.map Char.toLower)

/-- `strings.EqualFold` restricted to ASCII case folding (header names are
ASCII, where Unicode simple folding and ASCII folding agree). -/
def strEqFold (a b : String) : Bool := strToLower a == strToLower b

/-- The redacted value `safeLogHeaders` stores for one header: for an
`Authorization` key (case-insensitive) with at least one value, the first
value's first `min(10, len)` bytes followed by `"..."`; otherwise the
values joined by `", "`. -/
def redactHeaderValue (k : String) (v : List String) : String :=
  if strEqFold k "Authorization" && decide (0 < v.length) then
    strTakeChars (v.headD "") 10 ++ "..."
  else
    String.intercalate ", " v

/-- `safeLogHeaders` from src/main.go lines 45-55; `http.Header` is modelled
as an association list with distinct keys (Go map iteration order does not
affect the resulting map). -/
def safeLogHeaders (headers : List (String × List String)) : List (String × String) :=
  headers.map (fun p => (p.1, redactHeaderValue p.1 p.2))

/-- Whether a JSON value is a string (the shape accepted by the handler's
`.(string)` type assertion). -/
def jsonIsStr : Json → Bool
  | Json.str _ => true
  | _ => false

/-- Example upstream image list: two references with distinct prompts. -/
def cxImages : List Image :=
  [{ url := "u0", revisedPrompt := "p0" }, { url := "u1", revisedPrompt := "p1" }]

/-- Example fetch outcomes: index `i` downloads the single byte `i`. -/
def cxFetch : Nat → FetchResult :=
  fun i => FetchResult.httpResp 200 (Except.ok [i])

/-- Example inbound body requesting inline encoding. -/
def cxB64Parsed : Json := Json.obj [("response_format", Json.str "b64_json")]

/-- Example upstream body: one image carrying a revised prompt. -/
def cx3Up : Json :=
  Json.obj [("images", Json.arr [Json.obj [("url", Json.str "u"), ("revised_prompt", Json.str "p")]]),
            ("timings", Json.obj [("inference", Json.num "1")]),
            ("seed", Json.num "7")]

/-- Example fetch outcome: every download hits a transport error. -/
def cx3Fetch : Nat → FetchResult := fun _ => FetchResult.transportErr "boom"

/-- Example upstream body carrying a field unknown to `OriginResponse`. -/
def cx6Up : Json :=
  Json.obj [("images", Json.arr [Json.obj [("url", Json.str "u")]]),
            ("timings", Json.obj [("inference", Json.num "2")]),
            ("seed", Json.num "42"),
            ("nsfw_flags", Json.arr [])]

/-- What the pass-through branch actually writes for `cx6Up`: the re-encoded
known fields, without `nsfw_flags`. -/
def cx6Out : Json :=
  Json.obj [("images", Json.arr [Json.obj [("url", Json.str "u")]]),
            ("timings", Json.obj [("inference", Json.num "2")]),
            ("seed", Json.num "42")]

/-- The known fields of `cx6Up` alone, for the unknown-field decode law. -/
def cx8Fields : List (String × Json) :=
  [("images", Json.arr [Json.obj [("url", Json.str "u")]]),
   ("timings", Json.obj [("inference", Json.num "2")]),
   ("seed", Json.num "42")]

/-- Every 6-bit group decodes back to itself through the alphabet. -/
theorem decChar_encChar : ∀ n, n < 64 → decChar (encChar n) = some n := by decide

/-- No alphabet character is the padding character. -/
theorem encChar_ne_pad : ∀ n, n < 64 → encChar n ≠ '=' := by decide

/-- Anchor vector for the standard alphabet: `encode([77,97,110]) = "TWFu"`
(RFC 4648's `Man` example), pinning the alphabet/padding scheme. -/
theorem encB64_known_vector :
    encodeToString [77, 97, 110] = "TWFu" ∧ encodeToString [77, 97] = "TWE=" ∧
    encodeToString [77] = "TQ==" := by decide

/-- Base64 round trip on byte lists. -/
theorem decB64_encB64 (bs : List Nat) (h : ∀ x ∈ bs, x < 256) :
    decB64 (encB64 bs) = some bs := by
  induction bs using encB64.induct with
  | case1 => simp [encB64, decB64]
  | case2 a =>
    have ha : a < 256 := h a (by simp)
    have h1 : a / 4 < 64 := by omega
    have h2 : a % 4 * 16 < 64 := by omega
    simp [encB64, decB64, decChar_encChar _ h1, decChar_encChar _ h2]
    omega
  | case3 a b =>
    have ha : a < 256 := h a (by simp)
    have hb : b < 256 := h b (by simp)
    have h1 : a / 4 < 64 := by omega
    have h2 : a % 4 * 16 + b / 16 < 64 := by omega
    have h3 : b % 16 * 4 < 64 := by omega
    have hne3 : (encChar (b % 16 * 4) = '=') = False := eq_false (encChar_ne_pad _ h3)
    simp [encB64, decB64, decChar_encChar _ h1, decChar_encChar _ h2,
          decChar_encChar _ h3, hne3]
    constructor <;> omega
  | case4 a b c rest ih =>
    have ha : a < 256 := h a (by simp)
    have hb : b < 256 := h b (by simp)
    have hc : c < 256 := h c (by simp)
    have hrest : ∀ x ∈ rest, x < 256 := fun x hx => h x (by simp [hx])
    have h1 : a / 4 < 64 := by omega
    have h2 : a % 4 * 16 + b / 16 < 64 := by omega
    have h3 : b % 16 * 4 + c / 64 < 64 := by omega
    have h4 : c % 64 < 64 := by omega
    have hne3 : (encChar (b % 16 * 4 + c / 64) = '=') = False := eq_false (encChar_ne_pad _ h3)
    have hne4 : (encChar (c % 64) = '=') = False := eq_false (encChar_ne_pad _ h4)
    simp [encB64, decB64, decChar_encChar _ h1, decChar_encChar _ h2,
          decChar_encChar _ h3, decChar_encChar _ h4, hne3, hne4, ih hrest]
    refine ⟨?_, ?_, ?_⟩ <;> omega

/-- A failing fetch outcome is collected as the all-empty item. -/
theorem collectOne_downloadImage_fail (images : List Image) (i : Nat) (f : FetchResult)
    (hf : fetchFails f = true) :
    collectOne (downloadImage images i f) = { b64Json := "", revisedPrompt := "" } := by
  cases f with
  | transportErr e => rfl
  | httpResp s body =>
    cases body with
    | error e => by_cases hs : s = 200 <;> simp [downloadImage, hs, collectOne]
    | ok bs =>
      have hs : s ≠ 200 := by simpa [fetchFails] using hf
      simp [downloadImage, hs, collectOne]

/-- A 200 response with readable bytes is sent as a result message carrying
the encoded bytes and the reference's revised prompt. -/
theorem downloadImage_success (images : List Image) (i : Nat) (bs : List Nat) :
    downloadImage images i (FetchResult.httpResp 200 (Except.ok bs)) =
      ChannelMsg.result { b64Json := encodeToString bs,
                          revisedPrompt := (images.getD i default).revisedPrompt } := by
  simp [downloadImage]

/-- The pass-through branch of the handler, shared shape. -/
theorem handleGenerations_passthrough (parsed : Json) (fields : List (String × Json))
    (up : Json) (o : OriginResponse) (created : Int) (fetch : Nat → FetchResult)
    (order : List Nat)
    (h1 : decodeToMap parsed = some fields)
    (h2 : decodeOriginResponse up = some o)
    (h3 : getStringField (remapSize fields) "response_format" ≠ "b64_json") :
    handleGenerations (some parsed) (UpstreamResult.responds (some up)) created fetch order =
      { status := 200, body := BodyOut.jsonBody (marshalOriginResponse o),
        upstreamCalled := true, fetchesStarted := 0 } := by
  simp [handleGenerations, h1, h2, h3]

/-- The inline-encoding branch of the handler, shared shape. -/
theorem handleGenerations_b64 (parsed : Json) (fields : List (String × Json))
    (up : Json) (o : OriginResponse) (created : Int) (fetch : Nat → FetchResult)
    (order : List Nat)
    (h1 : decodeToMap parsed = some fields)
    (h2 : decodeOriginResponse up = some o)
    (h3 : getStringField (remapSize fields) "response_format" = "b64_json") :
    handleGenerations (some parsed) (UpstreamResult.responds (some up)) created fetch order =
      { status := 200,
        body := BodyOut.jsonBody (some (marshalOpenAIResponse
          { created := created, data := fanOutCollect o.images fetch order })),
        upstreamCalled := true, fetchesStarted := o.images.length } := by
  simp [handleGenerations, h1, h2, h3]

/-- Appending a field with a fresh key does not change a lookup. -/
theorem lookupField_append_ne (fields : List (String × Json)) (k key : String) (v : Json)
    (h : key ≠ k) : lookupField (fields ++ [(k, v)]) key = lookupField fields key := by
  have hfalse : ((k, v).1 == key) = false := by simpa using (Ne.symm h)
  simp [lookupField, hfalse]

/-- A decodable upstream body that omits `seed` and `timings` still
marshals: the zero-value `json.Number` fields are re-encoded as the number
`0` and the full body is produced (nothing is suppressed). -/
theorem marshalOriginResponse_zero_number :
    decodeOriginResponse (Json.obj [("images", Json.arr [Json.obj [("url", Json.str "u")]])]) =
      some { images := [{ url := "u", revisedPrompt := "" }],
             timings := { inference := "" }, seed := "" } ∧
    marshalOriginResponse
        { images := [{ url := "u", revisedPrompt := "" }],
          timings := { inference := "" }, seed := "" } =
      some (Json.obj [("images", Json.arr [Json.obj [("url", Json.str "u")]]),
                      ("timings", Json.obj [("inference", Json.num "0")]),
                      ("seed", Json.num "0")]) :=
  ⟨rfl, rfl⟩

/-- C4: for every byte sequence returned by a successful fetch, the inline
base64 transform (standard alphabet, `=` padding, no newlines) is exactly
reversible: decoding the produced string reproduces the original bytes. -/
theorem c4_base64_roundtrip (bs : List Nat) (h : ∀ x ∈ bs, x < 256) :
    decB64 (encodeToString bs).data = some bs :=
  decB64_encB64 bs h

/-- C4 witness: the round trip at the spec's own test bytes `[1, 2, 3]`. -/
theorem c4_base64_roundtrip_witness :
    (∀ x ∈ [1, 2, 3], x < 256) ∧ decB64 (encodeToString [1, 2, 3]).data = some [1, 2, 3] :=
  ⟨by decide, c4_base64_roundtrip [1, 2, 3] (by decide)⟩

/-- C1 counterexample: with two references and completion order `[1, 0]`
(a permutation of the started indices), the collected output differs from
the input-order reassembly the claim requires — the coordinator emits items
in completion order, it never reorders by index. -/
theorem c1_counterexample :
    [1, 0].Perm (List.range cxImages.length) ∧
    fanOutCollect cxImages cxFetch [1, 0] ≠
      (List.range cxImages.length).map
        (fun i => collectOne (downloadImage cxImages i (cxFetch i))) := by
  constructor
  · decide
  · decide

/-- C1 amended: the coordinator's output follows completion order — the
`k`-th output item is the encoding of the outcome of the `k`-th fetch to
complete — so the output matches input order exactly when the completion
order is the input order. -/
theorem c1_amended (images : List Image) (fetch : Nat → FetchResult) (order : List Nat)
    (hperm : order.Perm (List.range images.length)) :
    (∀ (k i : Nat), order[k]? = some i →
      (fanOutCollect images fetch order)[k]? =
        some (collectOne (downloadImage images i (fetch i)))) ∧
    fanOutCollect images fetch (List.range images.length) =
      (List.range images.length).map
        (fun i => collectOne (downloadImage images i (fetch i))) := by
  constructor
  · intro k i hk
    simp [fanOutCollect, collectResults, List.getElem?_map, hk]
  · simp [fanOutCollect, collectResults, List.map_map]

/-- C1 amended, witness: at completion order `[1, 0]`, output position `0`
holds the encoding of the outcome for reference `1`. -/
theorem c1_amended_witness :
    (fanOutCollect cxImages cxFetch [1, 0])[0]? =
      some (collectOne (downloadImage cxImages 1 (cxFetch 1))) :=
  (c1_amended cxImages cxFetch [1, 0] (by decide)).1 0 1 (by decide)

/-- C2: in the inline-encoding branch the coordinator produces exactly one
output item per image reference (`|output| = |input|`), however many fetches
fail, and for zero references it produces the empty list with zero
goroutines started. -/
theorem c2_output_length (parsed : Json) (fields : List (String × Json)) (up : Json)
    (o : OriginResponse) (created : Int) (fetch : Nat → FetchResult) (order : List Nat)
    (h1 : decodeToMap parsed = some fields)
    (h2 : decodeOriginResponse up = some o)
    (h3 : getStringField (remapSize fields) "response_format" = "b64_json")
    (hperm : order.Perm (List.range o.images.length)) :
    (fanOutCollect o.images fetch order).length = o.images.length ∧
    handleGenerations (some parsed) (UpstreamResult.responds (some up)) created fetch order =
      { status := 200,
        body := BodyOut.jsonBody (some (marshalOpenAIResponse
          { created := created, data := fanOutCollect o.images fetch order })),
        upstreamCalled := true, fetchesStarted := o.images.length } ∧
    (o.images = [] → fanOutCollect o.images fetch order = [] ∧ o.images.length = 0) := by
  refine ⟨?_, handleGenerations_b64 parsed fields up o created fetch order h1 h2 h3, ?_⟩
  · have hlen := hperm.length_eq
    simp only [List.length_range] at hlen
    simp [fanOutCollect, collectResults, hlen]
  · intro h0
    have : order = [] := by
      apply List.Perm.eq_nil
      simpa [h0] using hperm
    simp [this, fanOutCollect, collectResults, h0]

/-- C2 witness: a concrete single-image request in the inline branch. -/
theorem c2_output_length_witness :
    (fanOutCollect [{ url := "u", revisedPrompt := "p" }] cxFetch [0]).length = 1 := by
  have h := c2_output_length cxB64Parsed [("response_format", Json.str "b64_json")]
    cx3Up { images := [{ url := "u", revisedPrompt := "p" }],
            timings := { inference := "1" }, seed := "7" }
    0 cxFetch [0] rfl rfl (by decide) (by decide)
  exact h.1

/-- C3 counterexample: one reference with revised prompt `"p"` whose fetch
fails; the HTTP status indeed stays 200, but the failure item is
`⟨"", ""⟩` — it does NOT carry the reference's `revisedPrompt`, because the
error channel message carries no index or metadata. -/
theorem c3_counterexample :
    (handleGenerations (some cxB64Parsed) (UpstreamResult.responds (some cx3Up))
        0 cx3Fetch [0]).status = 200 ∧
    fanOutCollect [{ url := "u", revisedPrompt := "p" }] cx3Fetch [0] =
      [{ b64Json := "", revisedPrompt := "" }] ∧
    ({ b64Json := "", revisedPrompt := "" } : OpenAIDataItem).revisedPrompt ≠ "p" := by
  refine ⟨rfl, by decide, by decide⟩

/-- C3 amended: a fetch failure never changes the HTTP status from 200 and
is mapped to an item with empty inline data AND empty revised prompt; only
a successful fetch's item carries the revised prompt of the reference it
was fetched for (at the output position given by completion order). -/
theorem c3_amended (parsed : Json) (fields : List (String × Json)) (up : Json)
    (o : OriginResponse) (created : Int) (fetch : Nat → FetchResult) (order : List Nat)
    (h1 : decodeToMap parsed = some fields)
    (h2 : decodeOriginResponse up = some o)
    (h3 : getStringField (remapSize fields) "response_format" = "b64_json")
    (hperm : order.Perm (List.range o.images.length)) :
    (handleGenerations (some parsed) (UpstreamResult.responds (some up))
        created fetch order).status = 200 ∧
    (∀ (k i : Nat), order[k]? = some i →
      (fetchFails (fetch i) = true →
        (fanOutCollect o.images fetch order)[k]? =
          some { b64Json := "", revisedPrompt := "" }) ∧
      (∀ bs, fetch i = FetchResult.httpResp 200 (Except.ok bs) →
        (fanOutCollect o.images fetch order)[k]? =
          some { b64Json := encodeToString bs,
                 revisedPrompt := (o.images.getD i default).revisedPrompt })) := by
  constructor
  · rw [handleGenerations_b64 parsed fields up o created fetch order h1 h2 h3]
  · intro k i hk
    constructor
    · intro hfail
      simp [fanOutCollect, collectResults, List.getElem?_map, hk,
            collectOne_downloadImage_fail o.images i (fetch i) hfail]
    · intro bs hbs
      simp [fanOutCollect, collectResults, List.getElem?_map, hk, hbs,
            downloadImage_success, collectOne]

/-- C3 amended, witness: concrete failing fetch keeps status 200 and yields
the all-empty item. -/
theorem c3_amended_witness :
    (handleGenerations (some cxB64Parsed) (UpstreamResult.responds (some cx3Up))
        0 cx3Fetch [0]).status = 200 ∧
    (fanOutCollect [{ url := "u", revisedPrompt := "p" }] cx3Fetch [0])[0]? =
      some { b64Json := "", revisedPrompt := "" } := by
  have h := c3_amended cxB64Parsed [("response_format", Json.str "b64_json")] cx3Up
    { images := [{ url := "u", revisedPrompt := "p" }],
      timings := { inference := "1" }, seed := "7" }
    0 cx3Fetch [0] rfl rfl (by decide) (by decide)
  exact ⟨h.1, (h.2 0 0 (by decide)).1 (by decide)⟩

/-- C5 counterexample: a 201 response with readable body is a 2xx status,
which the claim says must be a Success; `downloadImage` reports it as a
failure because the code tests `resp.StatusCode != http.StatusOK`, i.e.
"not exactly 200". -/
theorem c5_counterexample :
    isErrMsg (downloadImage cxImages 0 (FetchResult.httpResp 201 (Except.ok [7]))) = true ∧
    200 ≤ 201 ∧ 201 < 300 := by
  refine ⟨rfl, by decide, by decide⟩

/-- C5 amended: a single-image fetch is reported as a Failure exactly when
a transport-level error occurred, the HTTP status was anything other than
exactly 200, or the body read failed; a 200 response with readable bytes is
a Success carrying those bytes (encoded) and the reference's prompt. -/
theorem c5_amended (images : List Image) (i : Nat) (f : FetchResult) :
    isErrMsg (downloadImage images i f) = fetchFails f ∧
    (∀ bs, f = FetchResult.httpResp 200 (Except.ok bs) →
      downloadImage images i f =
        ChannelMsg.result { b64Json := encodeToString bs,
                            revisedPrompt := (images.getD i default).revisedPrompt }) := by
  constructor
  · cases f with
    | transportErr e => rfl
    | httpResp s body =>
      cases body with
      | error e => by_cases hs : s = 200 <;> simp [downloadImage, fetchFails, hs, isErrMsg]
      | ok bs => by_cases hs : s = 200 <;> simp [downloadImage, fetchFails, hs, isErrMsg]
  · intro bs hbs
    rw [hbs]
    exact downloadImage_success images i bs

/-- C5 amended, witness: a concrete 200 fetch with bytes `[1, 2, 3]`. -/
theorem c5_amended_witness :
    downloadImage cxImages 0 (FetchResult.httpResp 200 (Except.ok [1, 2, 3])) =
      ChannelMsg.result { b64Json := encodeToString [1, 2, 3], revisedPrompt := "p0" } :=
  (c5_amended cxImages 0 (FetchResult.httpResp 200 (Except.ok [1, 2, 3]))).2 [1, 2, 3] rfl

/-- C6 counterexample: the upstream body `cx6Up` carries the unknown field
`nsfw_flags`; the pass-through branch responds 200 with zero fetches, but
the body it writes is the re-serialization of the decoded known fields
(`cx6Out`) — its top-level keys differ from the upstream payload's, so the
response is NOT the verbatim upstream JSON. -/
theorem c6_counterexample :
    handleGenerations (some (Json.obj [])) (UpstreamResult.responds (some cx6Up))
        0 cxFetch [] =
      { status := 200, body := BodyOut.jsonBody (some cx6Out),
        upstreamCalled := true, fetchesStarted := 0 } ∧
    jsonTopKeys cx6Out ≠ jsonTopKeys cx6Up := by
  refine ⟨rfl, by decide⟩

/-- C6 amended: when `response_format` is absent or any value other than
`"b64_json"`, the handler responds 200 with the re-serialization of the
decoded `OriginResponse` (its known fields only; unknown upstream fields
are dropped), and the fan-out coordinator is never invoked — zero image
fetches are performed. -/
theorem c6_amended (parsed : Json) (fields : List (String × Json)) (up : Json)
    (o : OriginResponse) (created : Int) (fetch : Nat → FetchResult) (order : List Nat)
    (h1 : decodeToMap parsed = some fields)
    (h2 : decodeOriginResponse up = some o)
    (h3 : getStringField (remapSize fields) "response_format" ≠ "b64_json") :
    handleGenerations (some parsed) (UpstreamResult.responds (some up)) created fetch order =
      { status := 200, body := BodyOut.jsonBody (marshalOriginResponse o),
        upstreamCalled := true, fetchesStarted := 0 } :=
  handleGenerations_passthrough parsed fields up o created fetch order h1 h2 h3

/-- C6 amended, witness: the concrete pass-through request. -/
theorem c6_amended_witness :
    handleGenerations (some (Json.obj [])) (UpstreamResult.responds (some cx6Up))
        0 cxFetch [] =
      { status := 200,
        body := BodyOut.jsonBody (marshalOriginResponse
          { images := [{ url := "u", revisedPrompt := "" }],
            timings := { inference := "2" }, seed := "42" }),
        upstreamCalled := true, fetchesStarted := 0 } :=
  c6_amended (Json.obj []) [] cx6Up
    { images := [{ url := "u", revisedPrompt := "" }],
      timings := { inference := "2" }, seed := "42" }
    0 cxFetch [] rfl rfl (by decide)

/-- C7 counterexample: on an unparseable body the handler does respond 400
with no upstream call and no fetches, but the body `http.Error` writes is
the JSON message followed by a trailing newline — not exactly the JSON
message. -/
theorem c7_counterexample :
    handleGenerations none UpstreamResult.unavailable 0 cxFetch [] =
      { status := 400,
        body := BodyOut.text ("\x7b\"error\": \"Invalid JSON\"\x7d" ++ "\n"),
        upstreamCalled := false, fetchesStarted := 0 } ∧
    "\x7b\"error\": \"Invalid JSON\"\x7d" ++ "\n" ≠ "\x7b\"error\": \"Invalid JSON\"\x7d" := by
  refine ⟨rfl, by decide⟩

/-- C7 amended: for every inbound request whose body is not parseable JSON,
the handler responds 400 with body `{"error": "Invalid JSON"}` followed by
a newline, and neither the upstream call nor any image fetch is made. -/
theorem c7_amended (upstream : UpstreamResult) (created : Int)
    (fetch : Nat → FetchResult) (order : List Nat) :
    handleGenerations none upstream created fetch order =
      { status := 400,
        body := BodyOut.text (httpErrorBody "\x7b\"error\": \"Invalid JSON\"\x7d"),
        upstreamCalled := false, fetchesStarted := 0 } := rfl

/-- C8: adding a field unknown to the `OriginResponse` schema to an
upstream payload never changes the decode result — unknown fields are
ignored, not rejected, and the known fields decode as before. -/
theorem c8_unknown_fields (fields : List (String × Json)) (k : String) (v : Json)
    (h1 : k ≠ "images") (h2 : k ≠ "timings") (h3 : k ≠ "seed") :
    decodeOriginResponse (Json.obj (fields ++ [(k, v)])) =
      decodeOriginResponse (Json.obj fields) := by
  simp only [decodeOriginResponse,
    lookupField_append_ne fields k "images" v (Ne.symm h1),
    lookupField_append_ne fields k "timings" v (Ne.symm h2),
    lookupField_append_ne fields k "seed" v (Ne.symm h3)]

/-- C8 witness: the spec's own example, an added `nsfw_flags` array; the
decode still succeeds with the known fields. -/
theorem c8_unknown_fields_witness :
    decodeOriginResponse (Json.obj (cx8Fields ++ [("nsfw_flags", Json.arr [])])) =
      decodeOriginResponse (Json.obj cx8Fields) ∧
    decodeOriginResponse (Json.obj cx8Fields) =
      some { images := [{ url := "u", revisedPrompt := "" }],
             timings := { inference := "2" }, seed := "42" } :=
  ⟨c8_unknown_fields cx8Fields "nsfw_flags" (Json.arr [])
      (by decide) (by decide) (by decide), rfl⟩

/-- Length of the truncated header prefix. -/
theorem strTakeChars_length (s : String) (n : Nat) :
    (strTakeChars s n).length = min n s.length := by
  cases s with
  | mk data => simp [strTakeChars, String.length]

/-- C9 counterexample: the 11-character credential `"abcdefghij."` is
longer than 10 characters, yet the value `safeLogHeaders` stores for the
`Authorization` key is exactly that full credential followed by `".."` —
the raw credential IS included in what is passed to logging. -/
theorem c9_counterexample :
    safeLogHeaders [("Authorization", ["abcdefghij."])] =
      [("Authorization", "abcdefghij." ++ "..")] ∧
    ("abcdefghij." : String).length = 11 := by
  refine ⟨by decide, by decide⟩

/-- C9 amended: every header entry is mapped in place; an `Authorization`
key (case-insensitively) with a non-empty value list is stored as the first
value's first 10 characters plus `"..."` — so a credential LONGER THAN 13
characters can never occur inside the stored value — and every other key's
values are joined with `", "` unchanged. -/
theorem c9_amended (headers : List (String × List String)) (k : String) (v : List String)
    (hmem : (k, v) ∈ headers) :
    ((k, redactHeaderValue k v) ∈ safeLogHeaders headers) ∧
    (∀ (v0 : String) (rest : List String), v = v0 :: rest →
      strEqFold k "Authorization" = true →
      redactHeaderValue k v = strTakeChars v0 10 ++ "..." ∧
      (13 < v0.length → ∀ pre post : String,
        strTakeChars v0 10 ++ "..." ≠ pre ++ v0 ++ post)) ∧
    (strEqFold k "Authorization" = false →
      redactHeaderValue k v = String.intercalate ", " v) := by
  refine ⟨?_, ?_, ?_⟩
  · exact List.mem_map_of_mem (fun p => (p.1, redactHeaderValue p.1 p.2)) hmem
  · intro v0 rest hv hfold
    subst hv
    constructor
    · simp [redactHeaderValue, hfold]
    · intro hlen pre post heq
      have hdots : ("..." : String).length = 3 := rfl
      have hlhs : (strTakeChars v0 10 ++ "...").length = 13 := by
        simp [strTakeChars_length, hdots]
        omega
      have hrhs : (pre ++ v0 ++ post).length = pre.length + v0.length + post.length := by
        simp
      rw [heq, hrhs] at hlhs
      omega
  · intro hfold
    simp [redactHeaderValue, hfold]

/-- C9 amended, witness: a 14-character credential is truncated to its
first 10 characters plus dots. -/
theorem c9_amended_witness :
    ("Authorization", redactHeaderValue "Authorization" ["secret12345678"]) ∈
      safeLogHeaders [("Authorization", ["secret12345678"])] ∧
    redactHeaderValue "Authorization" ["secret12345678"] =
      strTakeChars "secret12345678" 10 ++ "..." := by
  have h := c9_amended [("Authorization", ["secret12345678"])]
    "Authorization" ["secret12345678"] (by simp)
  exact ⟨h.1, (h.2.1 "secret12345678" [] rfl (by decide)).1⟩

/-- C10: if the inbound `response_format` field is present but not a JSON
string (number, boolean, null, array or object), the handler does not
error: the type assertion yields `""`, so it takes the URL pass-through
branch and the fan-out path starts zero fetches. -/
theorem c10_nonstring_format (parsed : Json) (fields : List (String × Json)) (up : Json)
    (o : OriginResponse) (created : Int) (fetch : Nat → FetchResult) (order : List Nat)
    (v : Json)
    (h1 : decodeToMap parsed = some fields)
    (h2 : decodeOriginResponse up = some o)
    (h3 : lookupField (remapSize fields) "response_format" = some v)
    (h4 : jsonIsStr v = false) :
    handleGenerations (some parsed) (UpstreamResult.responds (some up)) created fetch order =
      { status := 200, body := BodyOut.jsonBody (marshalOriginResponse o),
        upstreamCalled := true, fetchesStarted := 0 } := by
  apply handleGenerations_passthrough parsed fields up o created fetch order h1 h2
  cases v <;> simp_all [getStringField, jsonIsStr]

/-- C10 witness: `response_format` given as the JSON number `7`. -/
theorem c10_nonstring_format_witness :
    handleGenerations (some (Json.obj [("response_format", Json.num "7")]))
        (UpstreamResult.responds (some cx6Up)) 0 cxFetch [] =
      { status := 200,
        body := BodyOut.jsonBody (marshalOriginResponse
          { images := [{ url := "u", revisedPrompt := "" }],
            timings := { inference := "2" }, seed := "42" }),
        upstreamCalled := true, fetchesStarted := 0 } :=
  c10_nonstring_format (Json.obj [("response_format", Json.num "7")])
    [("response_format", Json.num "7")] cx6Up
    { images := [{ url := "u", revisedPrompt := "" }],
      timings := { inference := "2" }, seed := "42" }
    0 cxFetch [] (Json.num "7") rfl rfl rfl rfl
